import Mathlib

/-!
Shallow embedding of the qb2pgsql repository: extraction of hospital
addresses and emergency-medical-services participation from parsed XML
documents, and the per-row upsert used by the loader.

XML documents are modelled as a tree of elements; an element carries its
tag, its optional text content, and its list of children, mirroring what
xml.etree.ElementTree exposes to the extraction code.  Python exceptions
inside the extraction functions are modelled with Except Unit; the outer
try/except blocks that convert any exception to None are modelled by
matching the Except result into an Option.
-/

/-- An XML element as seen by xml.etree.ElementTree: a tag, optional text
content, and the ordered list of child elements. -/
inductive Element : Type where
  | mk : String → Option String → List Element → Element

def Element.tag : Element → String
  | .mk t _ _ => t

def Element.text : Element → Option String
  | .mk _ s _ => s

def Element.children : Element → List Element
  | .mk _ _ c => c

/-- ElementTree find: the first child whose tag matches, or None. -/
def Element.find (e : Element) (t : String) : Option Element :=
  e.children.find? (fun c => c.tag == t)

/-- Whitespace characters the int builtin strips before parsing. -/
def isPySpace (c : Char) : Bool :=
  c == ' ' || c == '\t' || c == '\n' || c == '\r'

/-- Value of a run of characters that must all be decimal digits. -/
def digitsValAux : List Char → Nat → Option Nat
  | [], acc => some acc
  | c :: cs, acc =>
    if c.isDigit then digitsValAux cs (acc * 10 + (c.toNat - 48))
    else none

/-- Value of a non-empty all-digit run of characters, none otherwise. -/
def digitsVal : List Char → Option Nat
  | [] => none
  | c :: cs => digitsValAux (c :: cs) 0

/-- The int builtin applied to a string: optional surrounding whitespace,
an optional sign, then a non-empty run of digits; anything else raises
ValueError, modelled as none. -/
def pyInt (s : String) : Option Int :=
  match (s.toList.dropWhile isPySpace).reverse.dropWhile isPySpace |>.reverse with
  | '-' :: rest => (digitsVal rest).map (fun n => -(n : Int))
  | '+' :: rest => (digitsVal rest).map (fun n => (n : Int))
  | cs => (digitsVal cs).map (fun n => (n : Int))

/-- int applied to the text attribute of an element lookup: int(None)
raises TypeError, int of a non-numeric string raises ValueError. -/
def pyIntOfText (os : Option String) : Except Unit Int :=
  match os with
  | none => .error ()
  | some s =>
    match pyInt s with
    | none => .error ()
    | some n => .ok n

/-- Address record of qb2pgsql.main.  The street, city and house_number
fields hold whatever the text attribute of the found element holds, which
in Python may be None for an empty element, hence Option String here. -/
structure Address where
  ik_number : Int
  location_id : Int
  street : Option String
  city : Option String
  house_number : Option String
  zip_code : Int
deriving Repr, DecidableEq

/-- EmergencyMedicalServices record of qb2pgsql.main. -/
structure EmergencyMedicalServices where
  ik_number : Int
  location_id : Int
  provides_services : Bool
  levels : Option (List String)
deriving Repr, DecidableEq

/-- ReportID record of qb2pgsql.main. -/
structure ReportID where
  ik_number : Int
  location_id : Int
deriving Repr, DecidableEq

/-- get_standort of qb2pgsql.main: attribute access on a missing
Krankenhaus or Ein_Standort node raises (error), otherwise the optional
standort element is returned as a value. -/
def get_standort (root : Element) : Except Unit (Option Element) :=
  match root.find "Krankenhaus" with
  | none => .error ()
  | some kh =>
    match kh.find "Mehrere_Standorte" with
    | some standorte => .ok (standorte.find "Standortkontaktdaten")
    | none =>
      match kh.find "Ein_Standort" with
      | none => .error ()
      | some ein => .ok (ein.find "Krankenhauskontaktdaten")

/-- get_report_id of qb2pgsql.main: reads Standortnummer and IK text from
the standort and converts both to int; any missing node, missing text or
non-numeric text raises. -/
def get_report_id (root : Element) : Except Unit ReportID :=
  match get_standort root with
  | .error e => .error e
  | .ok none => .error ()
  | .ok (some standort) =>
    match standort.find "Standortnummer" with
    | none => .error ()
    | some sn =>
      match standort.find "IK" with
      | none => .error ()
      | some ik =>
        match pyIntOfText ik.text with
        | .error e => .error e
        | .ok ikN =>
          match pyIntOfText sn.text with
          | .error e => .error e
          | .ok snN => .ok ⟨ikN, snN⟩

/-- get_address of qb2pgsql.main: the try/except converts any raised
exception to None.  The street, city and house_number fields take the
text attribute of the found elements directly, so a present but empty
element yields a None field inside a returned Address. -/
def get_address (root : Element) : Option Address :=
  match get_standort root with
  | .error _ => none
  | .ok standortOpt =>
    match get_report_id root with
    | .error _ => none
    | .ok rid =>
      match standortOpt with
      | none => none
      | some standort =>
        match standort.find "Kontakt_Zugang" with
        | none => none
        | some zugang =>
          match zugang.find "Strasse", zugang.find "Ort",
              zugang.find "Hausnummer", zugang.find "Postleitzahl" with
          | some strasse, some ort, some haus, some plz =>
            match pyIntOfText plz.text with
            | .error _ => none
            | .ok plzN =>
              some ⟨rid.ik_number, rid.location_id, strasse.text, ort.text,
                haus.text, plzN⟩
          | _, _, _, _ => none

/-- get_emergency_medical_services_info of qb2pgsql.main: four-branch
classification of the Teilnahme_Notfallversorgung section, guarded by the
report identifier; any exception, and the fall-through case where none of
the branches matches, yields None. -/
def get_emergency_medical_services_info (root : Element) :
    Option EmergencyMedicalServices :=
  match get_report_id root with
  | .error _ => none
  | .ok rid =>
    match root.find "Teilnahme_Notfallversorgung" with
    | none => none
    | some sec =>
      match sec.find "Teilnahme_Notfallstufe" with
      | none => some ⟨rid.ik_number, rid.location_id, false, none⟩
      | some level =>
        if (level.find "Keine_Teilnahme_Notfallversorgung").isSome
            || (level.find "Notfallstufe_Nichtteilnahme_noch_nicht_vereinbart").isSome then
          some ⟨rid.ik_number, rid.location_id, false, none⟩
        else
          match level.find "Notfallstufe_zugeordnet" with
          | some z =>
            some ⟨rid.ik_number, rid.location_id, true,
              some (z.children.map Element.tag)⟩
          | none => none

namespace script

/-- Address record of the standalone script src/main.py (same fields as
the packaged one). -/
structure Address where
  ik_number : Int
  location_id : Int
  street : Option String
  city : Option String
  house_number : Option String
  zip_code : Int
deriving Repr, DecidableEq

/-- EmergencyMedicalServices record of the standalone script src/main.py:
no identifier fields. -/
structure EmergencyMedicalServices where
  provides_services : Bool
  levels : Option (List String)
deriving Repr, DecidableEq

/-- get_address of the standalone script src/main.py: location lookup,
identifier conversion and contact fields all inside one try/except. -/
def get_address (root : Element) : Option Address :=
  match root.find "Krankenhaus" with
  | none => none
  | some kh =>
    match
      (match kh.find "Mehrere_Standorte" with
        | some standorte => Except.ok (standorte.find "Standortkontaktdaten")
        | none =>
          match kh.find "Ein_Standort" with
          | none => Except.error ()
          | some ein => Except.ok (ein.find "Krankenhauskontaktdaten")) with
    | .error _ => none
    | .ok none => none
    | .ok (some standort) =>
      match standort.find "Standortnummer" with
      | none => none
      | some sn =>
        match standort.find "IK" with
        | none => none
        | some ik =>
          match standort.find "Kontakt_Zugang" with
          | none => none
          | some zugang =>
            match pyIntOfText ik.text, pyIntOfText sn.text with
            | .ok ikN, .ok snN =>
              match zugang.find "Strasse", zugang.find "Ort",
                  zugang.find "Hausnummer", zugang.find "Postleitzahl" with
              | some strasse, some ort, some haus, some plz =>
                match pyIntOfText plz.text with
                | .error _ => none
                | .ok plzN =>
                  some ⟨ikN, snN, strasse.text, ort.text, haus.text, plzN⟩
              | _, _, _, _ => none
            | _, _ => none

/-- get_emergency_medical_services_info of the standalone script
src/main.py: only two branches are recognized; a missing section, a
missing Teilnahme_Notfallstufe node, or a missing Notfallstufe_zugeordnet
node in the second branch raises, giving None. -/
def get_emergency_medical_services_info (root : Element) :
    Option EmergencyMedicalServices :=
  match root.find "Teilnahme_Notfallversorgung" with
  | none => none
  | some sec =>
    match sec.find "Teilnahme_Notfallstufe" with
    | none => none
    | some level =>
      if (level.find "Keine_Teilnahme_Notfallversorgung").isSome then
        some ⟨false, none⟩
      else
        match level.find "Notfallstufe_zugeordnet" with
        | none => none
        | some z => some ⟨true, some (z.children.map Element.tag)⟩

end script

/-- A persisted hospitals row as declared in qb2pgsql.db: composite
primary key (ik_number, location_id), the four address columns and the
two emergency-services columns. -/
structure HospitalRow where
  ik_number : Int
  location_id : Int
  street : Option String
  city : Option String
  house_number : Option String
  zip_code : Int
  provides_emergency_services : Bool
  levels : Option (List String)
deriving Repr, DecidableEq

/-- The composite primary key of a row. -/
def rowKey (r : HospitalRow) : Int × Int := (r.ik_number, r.location_id)

/-- Whether two rows carry the same composite primary key. -/
def sameKey (x r : HospitalRow) : Bool :=
  x.ik_number == r.ik_number && x.location_id == r.location_id

/-- The ON CONFLICT DO UPDATE set clause of the loader in qb2pgsql.main:
every non-key column of the existing row is overwritten with the values
of the incoming row; the key columns are untouched. -/
def overwriteNonKey (x r : HospitalRow) : HospitalRow :=
  { x with
    street := r.street,
    city := r.city,
    house_number := r.house_number,
    zip_code := r.zip_code,
    provides_emergency_services := r.provides_emergency_services,
    levels := r.levels }

/-- Modelled from the spec: the INSERT ... ON CONFLICT DO UPDATE
statement the loader in qb2pgsql.main executes per row is carried out by
the external database engine; its insert-or-overwrite semantics keyed on
(ik_number, location_id) is modelled here as: if a row with the same key
exists, overwrite its non-key columns, otherwise append the new row. -/
def upsert (t : List HospitalRow) (r : HospitalRow) : List HospitalRow :=
  if t.any (fun x => sameKey x r) then
    t.map (fun x => if sameKey x r then overwriteNonKey x r else x)
  else
    t ++ [r]

/-! Concrete documents used to settle the claims, mirroring the shapes of
the unit-test fixtures in tests/test_main.py and small variations of
them. -/

/-- A Krankenhaus container with one location under Mehrere_Standorte and
a resolvable identifier IK 123456789, Standortnummer 1. -/
def idBlock : Element :=
  .mk "Krankenhaus" none [
    .mk "Mehrere_Standorte" none [
      .mk "Standortkontaktdaten" none [
        .mk "IK" (some "123456789") [],
        .mk "Standortnummer" (some "1") []]]]

/-- Resolvable identifier, no Teilnahme_Notfallversorgung section. -/
def docNoSection : Element := .mk "Root" none [idBlock]

/-- An empty Teilnahme_Notfallversorgung section. -/
def secEmpty : Element := .mk "Teilnahme_Notfallversorgung" none []

/-- Resolvable identifier, empty Teilnahme_Notfallversorgung section. -/
def docEmptySection : Element := .mk "Root" none [idBlock, secEmpty]

/-- Resolvable identifier, assigned-tiers node with no children. -/
def docEmptyTiers : Element :=
  .mk "Root" none [idBlock,
    .mk "Teilnahme_Notfallversorgung" none [
      .mk "Teilnahme_Notfallstufe" none [
        .mk "Notfallstufe_zugeordnet" none []]]]

/-- Resolvable identifier, a no-participation marker together with an
assigned-tiers node under the same Teilnahme_Notfallstufe node. -/
def docDeclinedAndTiers : Element :=
  .mk "Root" none [idBlock,
    .mk "Teilnahme_Notfallversorgung" none [
      .mk "Teilnahme_Notfallstufe" none [
        .mk "Keine_Teilnahme_Notfallversorgung" none [],
        .mk "Notfallstufe_zugeordnet" none [
          .mk "Basisnotfallversorgung" none []]]]]

/-- Resolvable identifier, a not-yet-arranged marker together with an
assigned-tiers node under the same Teilnahme_Notfallstufe node. -/
def docNotYetAndTiers : Element :=
  .mk "Root" none [idBlock,
    .mk "Teilnahme_Notfallversorgung" none [
      .mk "Teilnahme_Notfallstufe" none [
        .mk "Notfallstufe_Nichtteilnahme_noch_nicht_vereinbart" none [],
        .mk "Notfallstufe_zugeordnet" none [
          .mk "Basisnotfallversorgung" none []]]]]

/-- The Teilnahme_Notfallstufe node of the NO_SERVICES_XML fixture. -/
def levelNoServices : Element :=
  .mk "Teilnahme_Notfallstufe" none [
    .mk "Keine_Teilnahme_Notfallversorgung" none []]

/-- The participation section of the NO_SERVICES_XML fixture. -/
def secNoServices : Element :=
  .mk "Teilnahme_Notfallversorgung" none [levelNoServices]

/-- The NO_SERVICES_XML fixture of tests/test_main.py: resolvable
identifier and an explicit no-participation marker. -/
def docNoServices : Element := .mk "Root" none [idBlock, secNoServices]

/-- The assigned-tiers node of the WITH_LEVELS_XML fixture. -/
def zWithLevels : Element :=
  .mk "Notfallstufe_zugeordnet" none [
    .mk "Basisnotfallversorgung" none [],
    .mk "Erweiterte_Notfallversorgung" none []]

/-- The Teilnahme_Notfallstufe node of the WITH_LEVELS_XML fixture. -/
def levelWithLevels : Element :=
  .mk "Teilnahme_Notfallstufe" none [zWithLevels]

/-- The participation section of the WITH_LEVELS_XML fixture. -/
def secWithLevels : Element :=
  .mk "Teilnahme_Notfallversorgung" none [levelWithLevels]

/-- The WITH_LEVELS_XML fixture of tests/test_main.py: resolvable
identifier and two assigned tiers in document order. -/
def docWithLevels : Element := .mk "Root" none [idBlock, secWithLevels]

/-- The record the packaged extraction returns on the WITH_LEVELS_XML
fixture. -/
def emsWithLevels : EmergencyMedicalServices :=
  ⟨123456789, 1, true,
    some ["Basisnotfallversorgung", "Erweiterte_Notfallversorgung"]⟩

/-- The MALFORMED_XML fixture of tests/test_main.py: an unrelated root
with no identifier-bearing nodes. -/
def docMalformed : Element :=
  .mk "Root" none [.mk "SomeOtherSection" none []]

/-- Resolvable identifier whose location carries a Kontakt_Zugang block
in which the Strasse element is present but empty. -/
def docEmptyStreet : Element :=
  .mk "Root" none [
    .mk "Krankenhaus" none [
      .mk "Mehrere_Standorte" none [
        .mk "Standortkontaktdaten" none [
          .mk "IK" (some "123456789") [],
          .mk "Standortnummer" (some "1") [],
          .mk "Kontakt_Zugang" none [
            .mk "Strasse" none [],
            .mk "Ort" (some "Berlin") [],
            .mk "Hausnummer" (some "1") [],
            .mk "Postleitzahl" (some "10115") []]]]]]

/-- An empty Mehrere_Standorte container. -/
def emptyMulti : Element := .mk "Mehrere_Standorte" none []

/-- A fully valid Ein_Standort entry. -/
def einStandortValid : Element :=
  .mk "Ein_Standort" none [
    .mk "Krankenhauskontaktdaten" none [
      .mk "IK" (some "987654321") [],
      .mk "Standortnummer" (some "2") []]]

/-- A Krankenhaus container holding an empty Mehrere_Standorte container
next to a fully valid Ein_Standort entry. -/
def khEmptyMultiWithSingle : Element :=
  .mk "Krankenhaus" none [emptyMulti, einStandortValid]

/-- An empty Mehrere_Standorte container next to a fully valid
Ein_Standort entry. -/
def docEmptyMultiWithSingle : Element :=
  .mk "Root" none [khEmptyMultiWithSingle]

/-- The Teilnahme_Notfallstufe node of a document, when the participation
section and the node are both present. -/
def participationLevel (root : Element) : Option Element :=
  (root.find "Teilnahme_Notfallversorgung").bind
    (fun sec => sec.find "Teilnahme_Notfallstufe")

/-- A concrete extracted row used for the loader claims. -/
def sampleRow : HospitalRow :=
  ⟨123456789, 1, some "Musterstrasse", some "Berlin", some "1", 10115,
    true, some ["Basisnotfallversorgung"]⟩

/-! Helper lemmas shared by several claims. -/

/-- When identifier resolution raises, both extraction functions return
None: the exception is caught by their try/except blocks before any
record is built. -/
theorem extraction_absent_of_report_id_error (root : Element)
    (h : get_report_id root = Except.error ()) :
    get_address root = none ∧
    get_emergency_medical_services_info root = none := by
  constructor
  · unfold get_address
    cases hs : get_standort root with
    | error e => rfl
    | ok so => rw [h]
  · unfold get_emergency_medical_services_info
    rw [h]

/-- The false/None record is returned whenever the identifier resolves,
the participation section is present and the Teilnahme_Notfallstufe node
is absent. -/
theorem ems_record_of_missing_level (root : Element) (rid : ReportID)
    (sec : Element)
    (hid : get_report_id root = Except.ok rid)
    (hsec : root.find "Teilnahme_Notfallversorgung" = some sec)
    (hlev : sec.find "Teilnahme_Notfallstufe" = none) :
    get_emergency_medical_services_info root =
      some ⟨rid.ik_number, rid.location_id, false, none⟩ := by
  unfold get_emergency_medical_services_info
  simp only [hid, hsec, hlev]

/-- Two rows with the same key have equal composite keys. -/
theorem sameKey_iff (x r : HospitalRow) :
    sameKey x r = true ↔ rowKey x = rowKey r := by
  simp [sameKey, rowKey, Prod.ext_iff]

/-- Every row matches its own key. -/
theorem sameKey_refl (r : HospitalRow) : sameKey r r = true := by
  simp [sameKey]

/-- Overwriting the non-key columns leaves the composite key unchanged. -/
theorem rowKey_overwriteNonKey (x r : HospitalRow) :
    rowKey (overwriteNonKey x r) = rowKey x := rfl

/-- Key matching is unchanged by overwriting the non-key columns. -/
theorem sameKey_overwriteNonKey (x r : HospitalRow) :
    sameKey (overwriteNonKey x r) r = sameKey x r := rfl

/-- Overwriting the non-key columns of a row that already carries the key
of the incoming row yields exactly the incoming row. -/
theorem overwriteNonKey_eq_of_sameKey (x r : HospitalRow)
    (h : sameKey x r = true) : overwriteNonKey x r = r := by
  rw [sameKey] at h
  simp only [Bool.and_eq_true, beq_iff_eq] at h
  cases x
  cases r
  simp_all [overwriteNonKey]

/-- Keys of a table are unchanged by the overwrite pass of an upsert. -/
theorem map_overwrite_keys (t : List HospitalRow) (r : HospitalRow) :
    ((t.map (fun x => if sameKey x r then overwriteNonKey x r else x)).map
      rowKey) = t.map rowKey := by
  rw [List.map_map]
  apply List.map_congr_left
  intro x _
  by_cases h : sameKey x r = true
  · simp [h, rowKey_overwriteNonKey]
  · simp [h]

/-- After an upsert, some row of the table carries the incoming key. -/
theorem upsert_any_key (t : List HospitalRow) (r : HospitalRow) :
    (upsert t r).any (fun x => sameKey x r) = true := by
  unfold upsert
  split
  · rename_i hany
    rw [List.any_eq_true] at hany ⊢
    obtain ⟨x, hx, hsk⟩ := hany
    refine ⟨overwriteNonKey x r, List.mem_map.mpr ⟨x, hx, by rw [if_pos hsk]⟩, ?_⟩
    rw [sameKey_overwriteNonKey]
    exact hsk
  · rw [List.any_eq_true]
    exact ⟨r, by simp, sameKey_refl r⟩

/-- When the incoming key is already present, an upsert is exactly the
overwrite pass. -/
theorem upsert_of_any (t : List HospitalRow) (r : HospitalRow)
    (h : t.any (fun x => sameKey x r) = true) :
    upsert t r =
      t.map (fun x => if sameKey x r then overwriteNonKey x r else x) := by
  unfold upsert
  rw [if_pos h]

/-- An upsert preserves distinctness of the composite keys. -/
theorem upsert_keys_nodup (t : List HospitalRow) (r : HospitalRow)
    (h : (t.map rowKey).Nodup) : ((upsert t r).map rowKey).Nodup := by
  unfold upsert
  split
  · rw [map_overwrite_keys]
    exact h
  · rename_i hany
    rw [List.map_append]
    rw [List.nodup_append]
    refine ⟨h, List.nodup_singleton _, ?_⟩
    intro k hk hk1
    simp only [List.map_cons, List.map_nil, List.mem_singleton] at hk1
    subst hk1
    rw [List.mem_map] at hk
    obtain ⟨x, hx, hkx⟩ := hk
    have : sameKey x r = true := (sameKey_iff x r).mpr hkx
    have hfalse : t.any (fun x => sameKey x r) = true :=
      List.any_eq_true.mpr ⟨x, hx, this⟩
    simp_all

/-- Overwrite pass on a table with distinct keys that contains the
incoming key: exactly the incoming row remains under that key. -/
theorem filter_overwrite_of_nodup (t : List HospitalRow) (r : HospitalRow)
    (hnd : (t.map rowKey).Nodup)
    (hany : t.any (fun x => sameKey x r) = true) :
    ((t.map (fun x => if sameKey x r then overwriteNonKey x r else x)).filter
      (fun x => sameKey x r)) = [r] := by
  induction t with
  | nil => simp at hany
  | cons a t ih =>
    simp only [List.map_cons, List.nodup_cons] at hnd
    by_cases ha : sameKey a r = true
    · have htail : ∀ x ∈ t.map (fun x => if sameKey x r then overwriteNonKey x r else x),
          ¬ (sameKey x r = true) := by
        intro x hx
        rw [List.mem_map] at hx
        obtain ⟨y, hy, hyx⟩ := hx
        intro hsk
        have hky : rowKey x = rowKey y := by
          subst hyx
          by_cases hy2 : sameKey y r = true
          · simp [if_pos hy2, rowKey_overwriteNonKey]
          · simp [hy2]
        have hkr : rowKey x = rowKey r := (sameKey_iff x r).mp hsk
        have hka : rowKey a = rowKey r := (sameKey_iff a r).mp ha
        exact hnd.1 (hka ▸ hkr ▸ hky ▸ List.mem_map_of_mem rowKey hy)
      have hnil : (t.map (fun x => if sameKey x r then overwriteNonKey x r else x)).filter
          (fun x => sameKey x r) = [] := List.filter_eq_nil_iff.mpr htail
      simp only [List.map_cons, if_pos ha, overwriteNonKey_eq_of_sameKey a r ha]
      rw [List.filter_cons_of_pos (p := fun x => sameKey x r) (sameKey_refl r), hnil]
    · have hany2 : t.any (fun x => sameKey x r) = true := by
        rw [List.any_cons] at hany
        simp only [ha, Bool.false_or] at hany
        exact hany
      simp only [List.map_cons, if_neg ha, List.filter_cons]
      exact ih hnd.2 hany2

/-! The claims. -/

/-- C1, counterexample: docNoSection has a resolvable identifier and no
Teilnahme_Notfallversorgung section at all, yet
get_emergency_medical_services_info returns no record; the attribute
access on the missing section raises and the exception handler yields
None, refuting the claim that an entirely absent section produces a
provides_services=false record. -/
theorem C1_counterexample :
    get_report_id docNoSection = Except.ok ⟨123456789, 1⟩ ∧
    docNoSection.find "Teilnahme_Notfallversorgung" = none ∧
    get_emergency_medical_services_info docNoSection = none :=
  ⟨rfl, rfl, rfl⟩

/-- C1, amended: for every document with a resolvable identifier whose
Teilnahme_Notfallversorgung section is present but carries no
Teilnahme_Notfallstufe sub-section, get_emergency_medical_services_info
returns the record with provides_services false and levels absent; when
the section itself is absent the function instead returns no record. -/
theorem C1_amended (root : Element) (rid : ReportID) (sec : Element)
    (hid : get_report_id root = Except.ok rid)
    (hsec : root.find "Teilnahme_Notfallversorgung" = some sec)
    (hlev : sec.find "Teilnahme_Notfallstufe" = none) :
    get_emergency_medical_services_info root =
      some ⟨rid.ik_number, rid.location_id, false, none⟩ :=
  ems_record_of_missing_level root rid sec hid hsec hlev

/-- C1, witness: the amended claim evaluated on docEmptySection. -/
theorem C1_witness :
    get_report_id docEmptySection = Except.ok ⟨123456789, 1⟩ ∧
    docEmptySection.find "Teilnahme_Notfallversorgung" = some secEmpty ∧
    secEmpty.find "Teilnahme_Notfallstufe" = none ∧
    get_emergency_medical_services_info docEmptySection =
      some ⟨123456789, 1, false, none⟩ :=
  ⟨rfl, rfl, rfl, C1_amended docEmptySection ⟨123456789, 1⟩ secEmpty rfl rfl rfl⟩

/-- C2, counterexample: a document whose Notfallstufe_zugeordnet node has
no children yields a record with provides_services true and levels equal
to the empty sequence, refuting the claimed invariant that levels is
non-empty whenever provides_services is true. -/
theorem C2_counterexample :
    get_emergency_medical_services_info docEmptyTiers =
      some ⟨123456789, 1, true, some []⟩ := rfl

/-- C2, amended: for every record get_emergency_medical_services_info
returns, levels is present (as a possibly empty sequence) exactly when
provides_services is true, and levels is absent whenever
provides_services is false. -/
theorem C2_amended (root : Element) (e : EmergencyMedicalServices)
    (h : get_emergency_medical_services_info root = some e) :
    e.levels.isSome = e.provides_services ∧
    (e.provides_services = false → e.levels = none) := by
  have hmain : e.levels.isSome = e.provides_services := by
    unfold get_emergency_medical_services_info at h
    repeat' split at h
    all_goals first
      | exact Option.noConfusion h
      | (injection h with h2
         subst h2
         rfl)
  refine ⟨hmain, fun hf => ?_⟩
  cases hl : e.levels with
  | none => rfl
  | some ls =>
    rw [hl, hf] at hmain
    simp at hmain

/-- C2, witness: the amended invariant evaluated on docWithLevels. -/
theorem C2_witness :
    get_emergency_medical_services_info docWithLevels = some emsWithLevels ∧
    (emsWithLevels.levels.isSome = emsWithLevels.provides_services ∧
      (emsWithLevels.provides_services = false → emsWithLevels.levels = none)) :=
  ⟨rfl, C2_amended docWithLevels emsWithLevels rfl⟩

/-- C3, counterexample: docDeclinedAndTiers has a resolvable identifier
and its Teilnahme_Notfallstufe node contains a Notfallstufe_zugeordnet
node, yet the returned record has provides_services false and no levels,
because the no-participation marker present in the same node takes
precedence; this refutes the claim as universally stated. -/
theorem C3_counterexample :
    get_report_id docDeclinedAndTiers = Except.ok ⟨123456789, 1⟩ ∧
    ((participationLevel docDeclinedAndTiers).bind
      (fun level => level.find "Notfallstufe_zugeordnet")).isSome = true ∧
    get_emergency_medical_services_info docDeclinedAndTiers =
      some ⟨123456789, 1, false, none⟩ :=
  ⟨rfl, rfl, rfl⟩

/-- C3, amended: for every document with a resolvable identifier whose
Teilnahme_Notfallstufe node contains a Notfallstufe_zugeordnet node and
contains neither the no-participation marker nor the not-yet-arranged
marker, get_emergency_medical_services_info returns provides_services
true and levels equal to the tag names of the children of that node in
document order, preserved exactly. -/
theorem C3_amended (root : Element) (rid : ReportID) (sec level z : Element)
    (hid : get_report_id root = Except.ok rid)
    (hsec : root.find "Teilnahme_Notfallversorgung" = some sec)
    (hlev : sec.find "Teilnahme_Notfallstufe" = some level)
    (hno : level.find "Keine_Teilnahme_Notfallversorgung" = none)
    (hny : level.find "Notfallstufe_Nichtteilnahme_noch_nicht_vereinbart" = none)
    (hz : level.find "Notfallstufe_zugeordnet" = some z) :
    get_emergency_medical_services_info root =
      some ⟨rid.ik_number, rid.location_id, true,
        some (z.children.map Element.tag)⟩ := by
  unfold get_emergency_medical_services_info
  simp [hid, hsec, hlev, hno, hny, hz]

/-- C3, witness: the amended claim evaluated on docWithLevels, whose two
tiers appear as Basisnotfallversorgung then Erweiterte_Notfallversorgung
in document order. -/
theorem C3_witness :
    get_report_id docWithLevels = Except.ok ⟨123456789, 1⟩ ∧
    docWithLevels.find "Teilnahme_Notfallversorgung" = some secWithLevels ∧
    secWithLevels.find "Teilnahme_Notfallstufe" = some levelWithLevels ∧
    levelWithLevels.find "Keine_Teilnahme_Notfallversorgung" = none ∧
    levelWithLevels.find "Notfallstufe_Nichtteilnahme_noch_nicht_vereinbart" = none ∧
    levelWithLevels.find "Notfallstufe_zugeordnet" = some zWithLevels ∧
    get_emergency_medical_services_info docWithLevels =
      some ⟨123456789, 1, true,
        some (zWithLevels.children.map Element.tag)⟩ :=
  ⟨rfl, rfl, rfl, rfl, rfl, rfl,
    C3_amended docWithLevels ⟨123456789, 1⟩ secWithLevels levelWithLevels
      zWithLevels rfl rfl rfl rfl rfl rfl⟩

/-- C4, counterexample: docEmptySection has a resolvable identifier and a
present but empty Teilnahme_Notfallversorgung section, and
get_emergency_medical_services_info returns the provides_services=false
record rather than no record, refuting the claim that the result is
absent in this case. -/
theorem C4_counterexample :
    get_report_id docEmptySection = Except.ok ⟨123456789, 1⟩ ∧
    docEmptySection.find "Teilnahme_Notfallversorgung" = some secEmpty ∧
    secEmpty.children = [] ∧
    get_emergency_medical_services_info docEmptySection =
      some ⟨123456789, 1, false, none⟩ :=
  ⟨rfl, rfl, rfl, rfl⟩

/-- C4, amended: for every document with a resolvable identifier whose
Teilnahme_Notfallversorgung section is present but empty,
get_emergency_medical_services_info returns the record with
provides_services false and levels absent; the result is absent only
when identifier resolution fails or the section itself is missing. -/
theorem C4_amended (root : Element) (rid : ReportID) (sec : Element)
    (hid : get_report_id root = Except.ok rid)
    (hsec : root.find "Teilnahme_Notfallversorgung" = some sec)
    (hempty : sec.children = []) :
    get_emergency_medical_services_info root =
      some ⟨rid.ik_number, rid.location_id, false, none⟩ :=
  ems_record_of_missing_level root rid sec hid hsec
    (by simp [Element.find, hempty])

/-- C4, witness: the amended claim evaluated on docEmptySection. -/
theorem C4_witness :
    get_report_id docEmptySection = Except.ok ⟨123456789, 1⟩ ∧
    docEmptySection.find "Teilnahme_Notfallversorgung" = some secEmpty ∧
    secEmpty.children = [] ∧
    get_emergency_medical_services_info docEmptySection =
      some ⟨123456789, 1, false, none⟩ :=
  ⟨rfl, rfl, rfl, C4_amended docEmptySection ⟨123456789, 1⟩ secEmpty rfl rfl rfl⟩

/-- C5, code bug: on a document whose Strasse element is present but
empty, get_address returns an Address whose street field is None while
the other fields are populated, a partially filled record; this
contradicts the declared field type of the Address named tuple and the
NOT NULL street column of the hospitals table the row is later written
to. -/
theorem C5_theorem :
    get_address docEmptyStreet =
      some ⟨123456789, 1, none, some "Berlin", some "1", 10115⟩ := rfl

/-- C6, counterexample: a marked no-participation document yields the
provides_services=false record, but the absent-section document with the
same resolvable identifier yields no record at all, so the two results
are not the same, refuting the final clause of the claim. -/
theorem C6_counterexample :
    get_emergency_medical_services_info docNoServices =
      some ⟨123456789, 1, false, none⟩ ∧
    get_report_id docNoSection = Except.ok ⟨123456789, 1⟩ ∧
    get_emergency_medical_services_info docNoSection = none :=
  ⟨rfl, rfl, rfl⟩

/-- C6, amended: for every document with a resolvable identifier whose
participation sub-section is present and marked no-participation or
not-yet-arranged, get_emergency_medical_services_info returns
provides_services false and levels absent, the same record as the
missing-sub-section case; the absent-section case instead yields no
record. -/
theorem C6_amended (root : Element) (rid : ReportID) (sec level : Element)
    (hid : get_report_id root = Except.ok rid)
    (hsec : root.find "Teilnahme_Notfallversorgung" = some sec)
    (hlev : sec.find "Teilnahme_Notfallstufe" = some level)
    (hmark : (level.find "Keine_Teilnahme_Notfallversorgung").isSome = true ∨
      (level.find "Notfallstufe_Nichtteilnahme_noch_nicht_vereinbart").isSome = true) :
    get_emergency_medical_services_info root =
      some ⟨rid.ik_number, rid.location_id, false, none⟩ := by
  unfold get_emergency_medical_services_info
  rcases hmark with hk | hny
  · simp [hid, hsec, hlev, hk]
  · simp [hid, hsec, hlev, hny]

/-- C6, witness: the amended claim evaluated on the NO_SERVICES_XML
fixture, matching the concrete scenario of the spec. -/
theorem C6_witness :
    get_report_id docNoServices = Except.ok ⟨123456789, 1⟩ ∧
    docNoServices.find "Teilnahme_Notfallversorgung" = some secNoServices ∧
    secNoServices.find "Teilnahme_Notfallstufe" = some levelNoServices ∧
    (levelNoServices.find "Keine_Teilnahme_Notfallversorgung").isSome = true ∧
    get_emergency_medical_services_info docNoServices =
      some ⟨123456789, 1, false, none⟩ :=
  ⟨rfl, rfl, rfl, rfl,
    C6_amended docNoServices ⟨123456789, 1⟩ secNoServices levelNoServices
      rfl rfl rfl (Or.inl rfl)⟩

/-- C7: whenever identifier resolution raises, both get_address and
get_emergency_medical_services_info return None; no partial record is
produced and, both functions being total Option-valued mappings here, no
exception escapes either one. -/
theorem C7_theorem (root : Element)
    (h : get_report_id root = Except.error ()) :
    get_address root = none ∧
    get_emergency_medical_services_info root = none :=
  extraction_absent_of_report_id_error root h

/-- C7, witness: the claim evaluated on the MALFORMED_XML fixture, which
has no identifier-bearing nodes at all. -/
theorem C7_witness :
    get_report_id docMalformed = Except.error () ∧
    (get_address docMalformed = none ∧
      get_emergency_medical_services_info docMalformed = none) :=
  ⟨rfl, C7_theorem docMalformed rfl⟩

/-- C8: loading the same row twice through the keyed upsert leaves, in
any table whose composite keys were distinct, exactly the one incoming
row under its key, and keeps the keys distinct; the upsert is a total
function, so no duplicate-key failure can occur. -/
theorem C8_theorem (t : List HospitalRow) (r : HospitalRow)
    (h : (t.map rowKey).Nodup) :
    ((upsert (upsert t r) r).filter (fun x => sameKey x r)) = [r] ∧
    ((upsert (upsert t r) r).map rowKey).Nodup := by
  have h1 : ((upsert t r).map rowKey).Nodup := upsert_keys_nodup t r h
  have h2 : (upsert t r).any (fun x => sameKey x r) = true := upsert_any_key t r
  constructor
  · rw [upsert_of_any (upsert t r) r h2]
    exact filter_overwrite_of_nodup (upsert t r) r h1 h2
  · exact upsert_keys_nodup (upsert t r) r h1

/-- C8, witness: the round trip evaluated from the empty table with a
concrete extracted row. -/
theorem C8_witness :
    (([] : List HospitalRow).map rowKey).Nodup ∧
    (((upsert (upsert [] sampleRow) sampleRow).filter
        (fun x => sameKey x sampleRow)) = [sampleRow] ∧
      ((upsert (upsert [] sampleRow) sampleRow).map rowKey).Nodup) :=
  ⟨List.nodup_nil, C8_theorem [] sampleRow List.nodup_nil⟩

/-- C9, counterexample: docNotYetAndTiers contains an assigned-tiers node
and no no-participation marker, so it falls in the second branch the
standalone script recognizes, yet the script returns provides_services
true with one tier while the packaged CLI returns provides_services false
with no levels, because only the CLI checks the not-yet-arranged marker;
the two implementations disagree on a document the claim says they agree
on. -/
theorem C9_counterexample :
    get_report_id docNotYetAndTiers = Except.ok ⟨123456789, 1⟩ ∧
    ((participationLevel docNotYetAndTiers).bind
      (fun level => level.find "Keine_Teilnahme_Notfallversorgung")) = none ∧
    ((participationLevel docNotYetAndTiers).bind
      (fun level => level.find "Notfallstufe_zugeordnet")).isSome = true ∧
    script.get_emergency_medical_services_info docNotYetAndTiers =
      some ⟨true, some ["Basisnotfallversorgung"]⟩ ∧
    get_emergency_medical_services_info docNotYetAndTiers =
      some ⟨123456789, 1, false, none⟩ :=
  ⟨rfl, rfl, rfl, rfl, rfl⟩

/-- C9, amended: on documents with a resolvable identifier whose
participation sub-section is present and either carries the
no-participation marker, or carries an assigned-tiers node together with
neither the no-participation marker nor the not-yet-arranged marker, the
standalone script and the packaged CLI agree on provides_services and
levels; on the other shapes, among them the not-yet-arranged marker next
to an assigned-tiers node, the four-branch CLI classification is the
authoritative behavior. -/
theorem C9_amended (root : Element) (rid : ReportID) (sec level : Element)
    (hid : get_report_id root = Except.ok rid)
    (hsec : root.find "Teilnahme_Notfallversorgung" = some sec)
    (hlev : sec.find "Teilnahme_Notfallstufe" = some level)
    (hbranch : (level.find "Keine_Teilnahme_Notfallversorgung").isSome = true ∨
      ((level.find "Notfallstufe_zugeordnet").isSome = true ∧
        level.find "Keine_Teilnahme_Notfallversorgung" = none ∧
        level.find "Notfallstufe_Nichtteilnahme_noch_nicht_vereinbart" = none)) :
    Option.map (fun s => (s.provides_services, s.levels))
        (script.get_emergency_medical_services_info root) =
      Option.map (fun e => (e.provides_services, e.levels))
        (get_emergency_medical_services_info root) ∧
    (script.get_emergency_medical_services_info root).isSome = true := by
  unfold get_emergency_medical_services_info
  unfold script.get_emergency_medical_services_info
  rcases hbranch with hk | ⟨hz, hk, hny⟩
  · simp [hid, hsec, hlev, hk]
  · obtain ⟨z, hz2⟩ := Option.isSome_iff_exists.mp hz
    simp [hid, hsec, hlev, hk, hny, hz2]

/-- C9, witness: agreement evaluated on the NO_SERVICES_XML fixture,
which falls in the first branch the script recognizes. -/
theorem C9_witness :
    get_report_id docNoServices = Except.ok ⟨123456789, 1⟩ ∧
    docNoServices.find "Teilnahme_Notfallversorgung" = some secNoServices ∧
    secNoServices.find "Teilnahme_Notfallstufe" = some levelNoServices ∧
    (levelNoServices.find "Keine_Teilnahme_Notfallversorgung").isSome = true ∧
    (Option.map (fun s => (s.provides_services, s.levels))
        (script.get_emergency_medical_services_info docNoServices) =
      Option.map (fun e => (e.provides_services, e.levels))
        (get_emergency_medical_services_info docNoServices) ∧
      (script.get_emergency_medical_services_info docNoServices).isSome = true) :=
  ⟨rfl, rfl, rfl, rfl,
    C9_amended docNoServices ⟨123456789, 1⟩ secNoServices levelNoServices
      rfl rfl rfl (Or.inl rfl)⟩

/-- C10: when a Mehrere_Standorte container is present, get_standort
returns exactly the Standortkontaktdaten lookup inside that container,
never consulting Ein_Standort; and when that container has no
Standortkontaktdaten entry, identifier resolution raises and address and
emergency-services extraction of both implementations return absent,
regardless of any valid Ein_Standort entry elsewhere in the document. -/
theorem C10_theorem (root kh m : Element)
    (hkh : root.find "Krankenhaus" = some kh)
    (hm : kh.find "Mehrere_Standorte" = some m) :
    get_standort root = Except.ok (m.find "Standortkontaktdaten") ∧
    (m.find "Standortkontaktdaten" = none →
      get_report_id root = Except.error () ∧
      get_address root = none ∧
      get_emergency_medical_services_info root = none ∧
      script.get_address root = none) := by
  have hst : get_standort root = Except.ok (m.find "Standortkontaktdaten") := by
    unfold get_standort
    simp only [hkh, hm]
  refine ⟨hst, fun hempty => ?_⟩
  have hrid : get_report_id root = Except.error () := by
    unfold get_report_id
    simp only [hst, hempty]
  obtain ⟨ha, he⟩ := extraction_absent_of_report_id_error root hrid
  refine ⟨hrid, ha, he, ?_⟩
  unfold script.get_address
  simp only [hkh, hm, hempty]

/-- C10, witness: the claim evaluated on a document holding an empty
Mehrere_Standorte container next to a fully valid Ein_Standort entry. -/
theorem C10_witness :
    docEmptyMultiWithSingle.find "Krankenhaus" = some khEmptyMultiWithSingle ∧
    khEmptyMultiWithSingle.find "Mehrere_Standorte" = some emptyMulti ∧
    emptyMulti.find "Standortkontaktdaten" = none ∧
    (get_standort docEmptyMultiWithSingle =
        Except.ok (emptyMulti.find "Standortkontaktdaten") ∧
      (emptyMulti.find "Standortkontaktdaten" = none →
        get_report_id docEmptyMultiWithSingle = Except.error () ∧
        get_address docEmptyMultiWithSingle = none ∧
        get_emergency_medical_services_info docEmptyMultiWithSingle = none ∧
        script.get_address docEmptyMultiWithSingle = none)) :=
  ⟨rfl, rfl, rfl,
    C10_theorem docEmptyMultiWithSingle khEmptyMultiWithSingle emptyMulti rfl rfl⟩
